import Mathlib

/-!
Verification of the pricing-recommendation core of the `price-wise` repository
(`src/iteration_1/src/pricing_agent.py` and `src/iteration_1/src/models.py`),
as a shallow embedding over exact rational arithmetic (`ℚ`).  Python `float`
values are modelled as rationals, `datetime` values as integer timestamps
(seconds), Python dicts with fixed string keys as structures with `Option`
fields (`dict.get(k, d)` becomes `Option.getD`), and the in-memory
recommendation store as an association list.  Exceptions that the source
raises and catches locally are modelled with `Option`/`Except`.
-/

namespace PriceWise

/-- `ApprovalLevel` enum from `models.py` (`NONE`, `ANALYST`, `SENIOR_ANALYST`,
`MANAGER`, `DIRECTOR`).  The `"none"` member is called `level_none` here. -/
inductive ApprovalLevel where
  | level_none
  | analyst
  | senior_analyst
  | manager
  | director
deriving DecidableEq, Repr

/-- `ApprovalStatus` enum from `models.py`. -/
inductive ApprovalStatus where
  | pending
  | approved
  | rejected
  | expired
deriving DecidableEq, Repr

/-- `RiskLevel` enum from `models.py`. -/
inductive RiskLevel where
  | low
  | medium
  | high
  | critical
deriving DecidableEq, Repr

/-- `GuardrailViolation` model from `models.py`.  The `explanation` texts in
the source interpolate numeric values into fixed sentences; the fixed part is
kept and the interpolation is elided (no claim depends on the text). -/
structure GuardrailViolation where
  rule_name : String
  violation_type : String
  original_value : Option ℚ
  adjusted_value : Option ℚ
  explanation : String
  severity : RiskLevel
deriving DecidableEq, Repr

/-- `ProductInfo` model from `models.py`. -/
structure ProductInfo where
  item_id : String
  item_name : String
  cost_price : ℚ
  current_price : ℚ
  competitor_prices : List ℚ
  target_margin_percent : ℚ
  stock_level : ℕ
  hourly_sales : List ℤ
  price_elasticity : ℚ
deriving DecidableEq, Repr

/-- `PricingQuery` model from `models.py`. -/
structure PricingQuery where
  query : String
  product_ids : Option (List String) := Option.none
  context : Option String := Option.none
  requester_id : Option String := Option.none
  requester_role : Option String := some "analyst"
deriving DecidableEq, Repr

/-- The `financial_impact` dict built by `_validate_revenue_maximization`
(all seven keys) and by the fallback branch of `_assess_risk_and_approval`
(only the first four keys); missing keys are `Option.none`, and the source's
`dict.get(key, 0)` is `Option.getD · 0`. -/
structure FinancialImpact where
  price_change_percent : Option ℚ := Option.none
  price_change_amount : Option ℚ := Option.none
  estimated_monthly_revenue_impact : Option ℚ := Option.none
  estimated_daily_sales : Option ℚ := Option.none
  demand_change_percent : Option ℚ := Option.none
  current_daily_revenue : Option ℚ := Option.none
  projected_daily_revenue : Option ℚ := Option.none
deriving DecidableEq, Repr

/-- `PricingRecommendation` model from `models.py`.  Timestamps are integer
seconds. -/
structure PricingRecommendation where
  query : String
  product_info : List ProductInfo
  recommendation : String
  reasoning : String
  market_context : String
  confidence_score : ℚ
  recommended_price : Option ℚ := Option.none
  approval_threshold : ApprovalLevel := ApprovalLevel.analyst
  risk_level : RiskLevel := RiskLevel.low
  guardrail_violations : List GuardrailViolation := []
  financial_impact : Option FinancialImpact := Option.none
  approval_status : ApprovalStatus := ApprovalStatus.pending
  approval_notes : Option String := Option.none
  approved_by : Option String := Option.none
  approved_at : Option ℤ := Option.none
  expires_at : Option ℤ := Option.none
  recommendation_id : Option String := Option.none
  created_at : ℤ := 0
  created_by : Option String := Option.none
deriving DecidableEq, Repr

/-- `ApprovalRequest` model from `models.py`. -/
structure ApprovalRequest where
  recommendation_id : String
  approver_id : String
  approver_role : String
  decision : ApprovalStatus
  notes : Option String := Option.none
  timestamp : ℤ
deriving DecidableEq, Repr

/-- The mutable agent state relevant to the approval workflow:
`self.active_recommendations` (a dict, modelled as an association list in
insertion order) and `self.approval_history` (a list). -/
structure AgentState where
  active_recommendations : List (String × PricingRecommendation)
  approval_history : List ApprovalRequest
deriving DecidableEq, Repr

/-- Dictionary lookup `self.active_recommendations[id]` /
`self.active_recommendations.get(id)`. -/
def lookupRec (s : AgentState) (id : String) : Option PricingRecommendation :=
  (s.active_recommendations.find? (fun kv => kv.1 = id)).map Prod.snd

/-- In-place mutation of the recommendation object stored under `id`
(Python mutates the dict value; order and other keys are unchanged). -/
def updateRec (l : List (String × PricingRecommendation)) (id : String)
    (r : PricingRecommendation) : List (String × PricingRecommendation) :=
  l.map (fun kv => if kv.1 = id then (kv.1, r) else kv)

/-- `level_hierarchy` dict inside `_has_approval_authority`; it has no entry
for `ApprovalLevel.NONE`, so that key raises `KeyError` (modelled as
`Option.none`). -/
def level_hierarchy : ApprovalLevel → Option ℕ
  | ApprovalLevel.level_none => Option.none
  | ApprovalLevel.analyst => some 1
  | ApprovalLevel.senior_analyst => some 2
  | ApprovalLevel.manager => some 3
  | ApprovalLevel.director => some 4

/-- `_has_approval_authority`: `level_hierarchy[approver] >= level_hierarchy[required]`,
with `KeyError` as `Option.none`. -/
def has_approval_authority (approver_level required_level : ApprovalLevel) : Option Bool :=
  match level_hierarchy approver_level, level_hierarchy required_level with
  | some x, some y => some (decide (x ≥ y))
  | _, _ => Option.none

/-- The `approver_levels` dict used in `submit_approval_request` and
`get_pending_approvals`, read with `.get(role, ApprovalLevel.ANALYST)`. -/
def approver_levels (role : String) : ApprovalLevel :=
  if role = "analyst" then ApprovalLevel.analyst
  else if role = "senior_analyst" then ApprovalLevel.senior_analyst
  else if role = "manager" then ApprovalLevel.manager
  else if role = "director" then ApprovalLevel.director
  else ApprovalLevel.analyst

/-- `EnhancedPricingRAGAgent.submit_approval_request`.  The source wraps the
body in `try/except` and returns `False` on any exception: the not-found
`ValueError`, the insufficient-authority `ValueError`, and the `KeyError`
from `level_hierarchy` all yield `(false, s)` with the state unchanged.  On
success it mutates the stored recommendation's four approval fields, appends
the request to `approval_history`, and returns `True`.  Note that the source
never inspects the stored recommendation's current `approval_status`. -/
def submit_approval_request (s : AgentState) (req : ApprovalRequest) :
    Bool × AgentState :=
  match lookupRec s req.recommendation_id with
  | Option.none => (false, s)
  | some recommendation =>
    match has_approval_authority (approver_levels req.approver_role)
        recommendation.approval_threshold with
    | Option.none => (false, s)
    | some false => (false, s)
    | some true =>
      (true,
        { active_recommendations :=
            updateRec s.active_recommendations req.recommendation_id
              { recommendation with
                approval_status := req.decision
                approval_notes := req.notes
                approved_by := some req.approver_id
                approved_at := some req.timestamp }
          approval_history := s.approval_history ++ [req] })

/-- The list of currently pending recommendations, in store (insertion)
order: `[rec for rec in self.active_recommendations.values() if rec.approval_status == PENDING]`. -/
def pendingList (s : AgentState) : List PricingRecommendation :=
  (s.active_recommendations.map Prod.snd).filter
    (fun r => r.approval_status = ApprovalStatus.pending)

/-- The role-filtering comprehension inside `get_pending_approvals`; a
recommendation whose `approval_threshold` is the `NONE` level makes
`_has_approval_authority` raise `KeyError`, which `get_pending_approvals`
does not catch (modelled as `Except.error`). -/
def filter_by_authority (approver_level : ApprovalLevel) :
    List PricingRecommendation → Except String (List PricingRecommendation)
  | [] => Except.ok []
  | r :: rs =>
    match has_approval_authority approver_level r.approval_threshold with
    | Option.none => Except.error "KeyError: ApprovalLevel.NONE"
    | some true =>
      match filter_by_authority approver_level rs with
      | Except.ok l => Except.ok (r :: l)
      | Except.error e => Except.error e
    | some false => filter_by_authority approver_level rs

/-- `EnhancedPricingRAGAgent.get_pending_approvals`.  The Python guard
`if approver_role:` is a truthiness test: both `None` and the empty string
skip the role filter. -/
def get_pending_approvals (s : AgentState) (approver_role : Option String) :
    Except String (List PricingRecommendation) :=
  match approver_role with
  | Option.none => Except.ok (pendingList s)
  | some role =>
    if role = "" then Except.ok (pendingList s)
    else filter_by_authority (approver_levels role) (pendingList s)

/-- Modelled from the spec: the strict approval-authority order
analyst < senior_analyst < manager < director, used to state P4-style claims
against the source's `level_hierarchy`. -/
def spec_role_order : ApprovalLevel → ℕ
  | ApprovalLevel.level_none => 0
  | ApprovalLevel.analyst => 1
  | ApprovalLevel.senior_analyst => 2
  | ApprovalLevel.manager => 3
  | ApprovalLevel.director => 4

/-! ### Guardrail configuration (`self.guardrail_config` in `__init__`) -/

namespace guardrail_config

def max_price_change_percent : ℚ := 50
def min_margin_percent : ℚ := 10
def max_margin_percent : ℚ := 80
def price_below_cost_multiplier : ℚ := 1.05
def high_risk_price_change : ℚ := 25
def critical_risk_price_change : ℚ := 40
def low_confidence_threshold : ℚ := 0.6
def medium_confidence_threshold : ℚ := 0.8
def min_absolute_price : ℚ := 0.50
def high_value_item_threshold : ℚ := 500
def max_absolute_price_change : ℚ := 100

end guardrail_config

/-! ### Safety Guardrail Stage (`_apply_enhanced_guardrails`)

The price transformation is factored into one function per numbered guardrail
(`g0` … `g5`), composed by `guard_price`; `apply_enhanced_guardrails` then
packages the same computation together with the violation records. -/

/-- Emergency fallback price of guardrail 0:
`max(current_price, cost_price * 1.20, min_absolute_price)`. -/
def emergency_price (p : ProductInfo) : ℚ :=
  max p.current_price (max (p.cost_price * 1.20) guardrail_config.min_absolute_price)

/-- Guardrail 0: `original_price is None or original_price <= 0` is replaced
by the emergency fallback price. -/
def g0 (p : ProductInfo) : Option ℚ → ℚ
  | Option.none => emergency_price p
  | some v => if v ≤ 0 then emergency_price p else v

/-- Safe price of guardrail 1:
`max(current_price * 0.5, cost_price * price_below_cost_multiplier, min_absolute_price)`. -/
def safe_price (p : ProductInfo) : ℚ :=
  max (p.current_price * 0.5)
    (max (p.cost_price * guardrail_config.price_below_cost_multiplier)
      guardrail_config.min_absolute_price)

/-- Guardrail 1 (extreme-drop detector):
`if adjusted_price < current_price * 0.1` clamp to `safe_price`. -/
def g1 (p : ProductInfo) (x : ℚ) : ℚ :=
  if x < p.current_price * 0.1 then safe_price p else x

/-- Guardrail 2 (absolute floor): `if adjusted_price < min_absolute_price`. -/
def g2 (x : ℚ) : ℚ :=
  if x < guardrail_config.min_absolute_price then guardrail_config.min_absolute_price else x

/-- Guardrail 3 (minimum markup over cost):
`if adjusted_price < cost_price * price_below_cost_multiplier`. -/
def g3 (p : ProductInfo) (x : ℚ) : ℚ :=
  if x < p.cost_price * guardrail_config.price_below_cost_multiplier then
    p.cost_price * guardrail_config.price_below_cost_multiplier
  else x

/-- `max_change = current_price * (max_price_change_percent / 100)` of guardrail 4. -/
def max_change (p : ProductInfo) : ℚ :=
  p.current_price * (guardrail_config.max_price_change_percent / 100)

/-- Guardrail 4 (maximum swing):
`if abs(adjusted_price - current_price) > max_change` clamp towards
`current_price ± max_change`. -/
def g4 (p : ProductInfo) (x : ℚ) : ℚ :=
  if |x - p.current_price| > max_change p then
    (if x > p.current_price then p.current_price + max_change p
     else p.current_price - max_change p)
  else x

/-- `new_margin = (adjusted_price - cost_price) / adjusted_price * 100 if adjusted_price > 0 else 0`. -/
def margin (p : ProductInfo) (x : ℚ) : ℚ :=
  if x > 0 then (x - p.cost_price) / x * 100 else 0

/-- `min_margin_price = cost_price / (1 - min_margin_percent / 100)`. -/
def min_margin_price (p : ProductInfo) : ℚ :=
  p.cost_price / (1 - guardrail_config.min_margin_percent / 100)

/-- `max_margin_price = cost_price / (1 - max_margin_percent / 100)`. -/
def max_margin_price (p : ProductInfo) : ℚ :=
  p.cost_price / (1 - guardrail_config.max_margin_percent / 100)

/-- Guardrail 5 (margin floor/ceiling). -/
def g5 (p : ProductInfo) (x : ℚ) : ℚ :=
  if margin p x < guardrail_config.min_margin_percent then min_margin_price p
  else if margin p x > guardrail_config.max_margin_percent then max_margin_price p
  else x

/-- The price reaching guardrail 5 (output of guardrails 0-4). -/
def pre_margin_price (p : ProductInfo) (cand : Option ℚ) : ℚ :=
  g4 p (g3 p (g2 (g1 p (g0 p cand))))

/-- The final price produced by the Safety Guardrail Stage for a product and
candidate price. -/
def guard_price (p : ProductInfo) (cand : Option ℚ) : ℚ :=
  g5 p (pre_margin_price p cand)

/-- `EnhancedPricingRAGAgent._apply_enhanced_guardrails`: the full stage,
recording one `GuardrailViolation` per fired step, in firing order, plus the
price-preserving low-confidence flag (guardrail 6). -/
def apply_enhanced_guardrails (rec : PricingRecommendation) : PricingRecommendation :=
  match rec.product_info with
  | [] => rec
  | product :: _ =>
    let original := rec.recommended_price
    let x0 := g0 product original
    let v0 : List GuardrailViolation :=
      match original with
      | Option.none =>
        [⟨"critical_price_protection", "dangerous_pricing_error", original, some x0,
          "CRITICAL: dangerous price replaced by emergency fallback price", RiskLevel.critical⟩]
      | some v =>
        if v ≤ 0 then
          [⟨"critical_price_protection", "dangerous_pricing_error", original, some x0,
            "CRITICAL: dangerous price replaced by emergency fallback price", RiskLevel.critical⟩]
        else []
    let x1 := g1 product x0
    let v1 : List GuardrailViolation :=
      if x0 < product.current_price * 0.1 then
        [⟨"extreme_price_reduction_protection", "unrealistic_pricing", some x0, some x1,
          "Extreme price reduction detected - adjusted for safety", RiskLevel.critical⟩]
      else []
    let x2 := g2 x1
    let v2 : List GuardrailViolation :=
      if x1 < guardrail_config.min_absolute_price then
        [⟨"minimum_absolute_price", "potential_fraud_or_error", some x1, some x2,
          "Price adjusted to prevent potentially fraudulent or erroneous pricing", RiskLevel.critical⟩]
      else []
    let x3 := g3 product x2
    let v3 : List GuardrailViolation :=
      if x2 < product.cost_price * guardrail_config.price_below_cost_multiplier then
        [⟨"minimum_cost_margin", "price_below_minimum", some x2, some x3,
          "Price adjusted to maintain minimum markup above cost", RiskLevel.high⟩]
      else []
    let x4 := g4 product x3
    let v4 : List GuardrailViolation :=
      if |x3 - product.current_price| > max_change product then
        [⟨"maximum_price_change", "excessive_price_change", some x3, some x4,
          "Price change limited to prevent market shock", RiskLevel.medium⟩]
      else []
    let x5 := g5 product x4
    let v5 : List GuardrailViolation :=
      if margin product x4 < guardrail_config.min_margin_percent then
        [⟨"minimum_margin", "margin_too_low", some x4, some x5,
          "Price adjusted to maintain minimum margin", RiskLevel.medium⟩]
      else if margin product x4 > guardrail_config.max_margin_percent then
        [⟨"maximum_margin", "margin_too_high", some x4, some x5,
          "Price adjusted to prevent excessive margin", RiskLevel.low⟩]
      else []
    let v6 : List GuardrailViolation :=
      if rec.confidence_score < guardrail_config.low_confidence_threshold then
        [⟨"low_confidence", "insufficient_data", some rec.confidence_score, Option.none,
          "Low confidence score - recommendation requires additional validation", RiskLevel.medium⟩]
      else []
    let violations := v0 ++ v1 ++ v2 ++ v3 ++ v4 ++ v5 ++ v6
    { rec with
      recommended_price := some x5
      guardrail_violations := violations
      reasoning :=
        if violations.isEmpty then rec.reasoning
        else rec.reasoning ++ "\n\nGUARDRAIL ADJUSTMENTS:\n" ++
          String.intercalate "\n"
            (violations.map (fun v => "- " ++ v.rule_name ++ ": " ++ v.explanation)) }

/-! ### Revenue-Impact Validator (`_validate_revenue_maximization`) -/

/-- Python truthiness of `recommendation.recommended_price` (an
`Optional[float]`): falsy when `None` or `0.0`. -/
def priceFalsy : Option ℚ → Bool
  | Option.none => true
  | some v => v == 0

/-- `sum(product.hourly_sales) if product.hourly_sales else 0`, as a rational
(the empty-list guard is value-equal to summing the empty list). -/
def recentSales (p : ProductInfo) : ℚ :=
  ((p.hourly_sales.map (fun n => (n : ℚ))).sum)

/-- `EnhancedPricingRAGAgent._validate_revenue_maximization`: returns the
optional rejection message and the (possibly) updated recommendation; the
source mutates `recommendation.financial_impact` before the `< -100` check
and appends the financial summary to `reasoning` only on acceptance (the
summary text interpolations are elided). -/
def validate_revenue_maximization (rec : PricingRecommendation) :
    Option String × PricingRecommendation :=
  match rec.product_info, rec.recommended_price with
  | [], _ => (Option.none, rec)
  | _, Option.none => (Option.none, rec)
  | product :: _, some recommended_price =>
    if recommended_price = 0 then (Option.none, rec)
    else
      let current_price := product.current_price
      if current_price ≤ 0 then (Option.none, rec)
      else
        let price_change_pct := (recommended_price - current_price) / current_price * 100
        let demand_change_pct := product.price_elasticity * price_change_pct
        let new_demand_multiplier := max (1 + demand_change_pct / 100) 0.05
        let daily_sales_estimate := recentSales product * 4
        let current_daily_revenue := current_price * daily_sales_estimate
        let projected_daily_sales := daily_sales_estimate * new_demand_multiplier
        let projected_daily_revenue := recommended_price * projected_daily_sales
        let daily_revenue_impact := projected_daily_revenue - current_daily_revenue
        let monthly_revenue_impact := daily_revenue_impact * 30
        let fi : FinancialImpact :=
          { price_change_percent := some price_change_pct
            price_change_amount := some (recommended_price - current_price)
            estimated_monthly_revenue_impact := some monthly_revenue_impact
            estimated_daily_sales := some projected_daily_sales
            demand_change_percent := some demand_change_pct
            current_daily_revenue := some current_daily_revenue
            projected_daily_revenue := some projected_daily_revenue }
        let rec1 := { rec with financial_impact := some fi }
        if monthly_revenue_impact < -100 then
          (some "This recommendation would result in a negative monthly revenue impact", rec1)
        else
          (Option.none,
            { rec1 with reasoning := rec1.reasoning ++ "\n\nFINANCIAL IMPACT ANALYSIS (Elasticity-Based)" })

/-! Modelled from the spec (section 4.2 formulas, quoted by the claim), for
comparison with the figures computed by `validate_revenue_maximization`. -/

/-- Modelled from the spec: `price_change_pct = (candidate - current)/current * 100`. -/
def spec_price_change_pct (p : ProductInfo) (cand : ℚ) : ℚ :=
  (cand - p.current_price) / p.current_price * 100

/-- Modelled from the spec: `demand_change_pct = elasticity * price_change_pct`. -/
def spec_demand_change_pct (p : ProductInfo) (cand : ℚ) : ℚ :=
  p.price_elasticity * spec_price_change_pct p cand

/-- Modelled from the spec: `demand_multiplier = max(1 + demand_change_pct/100, 0.05)`. -/
def spec_demand_multiplier (p : ProductInfo) (cand : ℚ) : ℚ :=
  max (1 + spec_demand_change_pct p cand / 100) 0.05

/-- Modelled from the spec: baseline daily demand = (6-hour sales window sum) * 4. -/
def spec_baseline_daily (p : ProductInfo) : ℚ :=
  ((p.hourly_sales.map (fun n => (n : ℚ))).sum) * 4

/-- Modelled from the spec:
`monthly impact = (candidate * baseline * multiplier - current * baseline) * 30`. -/
def spec_monthly_revenue_impact (p : ProductInfo) (cand : ℚ) : ℚ :=
  (cand * (spec_baseline_daily p * spec_demand_multiplier p cand)
    - p.current_price * spec_baseline_daily p) * 30

/-! ### Risk & Approval Engine (`_assess_risk_and_approval`) -/

/-- `EnhancedPricingRAGAgent._assess_risk_and_approval`.  `now` stands for
`datetime.now()` (integer seconds); the 7-day expiry is `now + 7 * 86400`.
In the fallback branch (no `financial_impact`), a non-positive current price
makes the source set `price_change_pct = float('inf')`; this is modelled by
a value (`10^9`) larger than every threshold it is compared against. -/
def assess_risk_and_approval (now : ℤ) (rec : PricingRecommendation) :
    PricingRecommendation :=
  match rec.product_info, rec.recommended_price with
  | [], _ =>
    { rec with risk_level := RiskLevel.low, approval_threshold := ApprovalLevel.analyst }
  | _, Option.none =>
    { rec with risk_level := RiskLevel.low, approval_threshold := ApprovalLevel.analyst }
  | product :: _, some recommended_price =>
    if recommended_price = 0 then
      { rec with risk_level := RiskLevel.low, approval_threshold := ApprovalLevel.analyst }
    else
      let current_price := product.current_price
      let fallback : ℚ × ℚ × ℚ × Option FinancialImpact :=
        let daily_sales_estimate := recentSales product * 4
        let revenue_impact := (recommended_price - current_price) * daily_sales_estimate * 30
        let pct :=
          if current_price > 0 then |(recommended_price - current_price) / current_price * 100|
          else (10 ^ 9 : ℚ)
        let fi : FinancialImpact :=
          { price_change_percent :=
              some (if current_price > 0 then (recommended_price - current_price) / current_price * 100 else 0)
            price_change_amount := some (recommended_price - current_price)
            estimated_monthly_revenue_impact := some revenue_impact
            estimated_daily_sales := some daily_sales_estimate }
        (revenue_impact, pct, |recommended_price - current_price|, some fi)
      let quad : ℚ × ℚ × ℚ × Option FinancialImpact :=
        match rec.financial_impact with
        | some fi =>
          (fi.estimated_monthly_revenue_impact.getD 0,
           |fi.price_change_percent.getD 0|,
           |fi.price_change_amount.getD 0|,
           rec.financial_impact)
        | Option.none => fallback
      let revenue_impact := quad.1
      let price_change_pct := quad.2.1
      let price_change_abs := quad.2.2.1
      let fi' := quad.2.2.2
      let pair :=
        if price_change_pct ≥ guardrail_config.critical_risk_price_change then
          (RiskLevel.critical, ApprovalLevel.director)
        else if price_change_pct ≥ guardrail_config.high_risk_price_change
            ∨ price_change_abs > guardrail_config.max_absolute_price_change then
          (RiskLevel.high, ApprovalLevel.manager)
        else if price_change_pct ≥ 10
            ∨ rec.confidence_score < guardrail_config.medium_confidence_threshold
            ∨ |revenue_impact| > 10000
            ∨ product.current_price > guardrail_config.high_value_item_threshold then
          (RiskLevel.medium, ApprovalLevel.senior_analyst)
        else (RiskLevel.low, ApprovalLevel.analyst)
      { rec with
        financial_impact := fi'
        risk_level := pair.1
        approval_threshold := pair.2
        expires_at := some (now + 7 * 86400) }

/-! ### Input Guardrail Stage (`_validate_pricing_topic`,
`_validate_fraudulent_pricing`) and `process_query`.

Substring tests (Python `in`) are implemented concretely; `re.search` is an
external library call and is taken as an oracle parameter
`re_search : pattern → text → Bool`, applied to the exact pattern strings of
the source. -/

/-- `pat` is a prefix of `txt` (character lists). -/
def prefOf : List Char → List Char → Bool
  | [], _ => true
  | _ :: _, [] => false
  | a :: as, b :: bs => a == b && prefOf as bs

/-- `pat` occurs somewhere in `txt` (character lists). -/
def subOf (pat : List Char) : List Char → Bool
  | [] => prefOf pat []
  | c :: ts => prefOf pat (c :: ts) || subOf pat ts

/-- Python `pat in text` on strings. -/
def containsStr (text pat : String) : Bool :=
  subOf pat.data text.data

/-- Python `str.lower()` (character-wise lowercasing; ASCII suffices for the
keyword lists of the source). -/
def lowerStr (s : String) : String :=
  ⟨s.data.map Char.toLower⟩

/-- The `pricing_keywords` allow-list of `_validate_pricing_topic`. -/
def pricing_keywords : List String :=
  ["price", "pricing", "cost", "margin", "discount", "markup", "revenue",
   "profit", "expensive", "cheap", "affordable", "competitive", "sale",
   "promotion", "offer", "value", "rate", "fee", "charge", "bill",
   "quote", "estimate", "budget", "financial", "money", "dollar",
   "cents", "currency", "payment", "recommendation", "suggest",
   "optimize", "adjust", "increase", "decrease", "reduce", "raise"]

/-- The `non_pricing_keywords` deny-list of `_validate_pricing_topic`. -/
def non_pricing_keywords : List String :=
  ["weather forecast", "temperature today", "will it rain", "snow tomorrow",
   "sunny weather", "cloudy skies",
   "store hours", "contact information", "phone number", "email address",
   "recipe for", "cooking instructions", "restaurant menu",
   "flight booking", "hotel reservation", "vacation planning",
   "medical advice", "health symptoms", "doctor appointment",
   "movie times", "concert tickets", "entertainment schedule",
   "programming tutorial", "software installation", "computer repair"]

/-- The `pricing_patterns` regular expressions of `_validate_pricing_topic`. -/
def pricing_patterns : List String :=
  ["\\$\\d+", "\\d+\\s*cents?", "\\d+\\s*%", "how much", "what.*cost", "should.*price"]

/-- `EnhancedPricingRAGAgent._validate_pricing_topic` (message texts
abbreviated; the first matching deny keyword is interpolated as in the
source). -/
def validate_pricing_topic (re_search : String → String → Bool)
    (query : PricingQuery) : Option String :=
  let query_text := lowerStr query.query
  match non_pricing_keywords.find? (fun kw => containsStr query_text kw) with
  | some keyword =>
    some ("I apologize, but I can only assist with pricing-related inquiries. Your question appears to be about "
      ++ keyword ++ ", which is outside my scope of expertise.")
  | Option.none =>
    let has_pricing_content := pricing_keywords.any (fun kw => containsStr query_text kw)
    let has_pricing_pattern := pricing_patterns.any (fun pat => re_search pat query_text)
    if ¬ (has_pricing_content ∨ has_pricing_pattern) then
      some "I specialize in pricing analysis and recommendations. Please ask questions related to product pricing."
    else Option.none

/-- The `price_patterns` regular expressions of `_validate_fraudulent_pricing`. -/
def fraud_price_patterns : List String :=
  ["price.*to.*0\\b", "price.*at.*0\\b", "reduce.*price.*to.*0\\b",
   "make.*price.*0\\b", "set.*price.*0\\b", "\\$0\\b", "\\bzero\\s*dollars?\\b",
   "price.*zero\\b", "cost.*zero\\b",
   "\\$0\\.0[1-9]", "\\$0\\.1[0-9]", "\\$0\\.[2-4][0-9]",
   "0\\.0[1-9]\\s*dollars?", "0\\.[1-4][0-9]\\s*dollars?",
   "[1-4]?[0-9]\\s*cents?", "one\\s*cent", "penny", "almost\\s*free",
   "nearly\\s*zero", "minimal\\s*price"]

/-- The `suspicious_phrases` literal list of `_validate_fraudulent_pricing`. -/
def suspicious_phrases : List String :=
  ["price to 0", "price at 0", "price to zero", "price at zero",
   "reduce price to 0", "reduce price to zero", "set price to 0",
   "set price to zero", "make price 0", "make price zero",
   "price all items to 0", "price everything to 0",
   "set price to 1 cent", "make it 1 cent", "price it at 1 cent",
   "sell for 1 cent", "charge 1 cent", "cost 1 cent",
   "practically free", "give away", "free of charge"]

/-- `EnhancedPricingRAGAgent._validate_fraudulent_pricing` (both rejection
messages are fixed strings in the source; abbreviated here). -/
def validate_fraudulent_pricing (re_search : String → String → Bool)
    (query : PricingQuery) : Option String :=
  let query_text := lowerStr query.query
  if fraud_price_patterns.any (fun pat => re_search pat query_text) then
    some "I cannot process requests for extremely low pricing (under $0.50) as this may indicate an error or unauthorized activity."
  else if suspicious_phrases.any (fun ph => containsStr query_text ph) then
    some "I cannot assist with pricing requests that appear to be non-commercial or potentially unauthorized."
  else Option.none

/-- `EnhancedPricingRAGAgent._create_rejection_recommendation`; `now` is
`datetime.now()` and the expiry is `timedelta(minutes=1)` later. -/
def create_rejection_recommendation (now : ℤ) (query : PricingQuery)
    (rejection_type : String) (message : String) : PricingRecommendation :=
  { query := query.query
    recommended_price := Option.none
    reasoning := message
    confidence_score := 0
    product_info := []
    market_context := "Request rejected due to policy violation."
    recommendation := "Request cannot be processed due to policy violation."
    guardrail_violations :=
      [⟨lowerStr rejection_type, "policy_violation", Option.none, Option.none, message,
        RiskLevel.critical⟩]
    approval_status := ApprovalStatus.rejected
    risk_level := RiskLevel.critical
    approval_threshold := ApprovalLevel.director
    financial_impact := Option.none
    created_at := now
    expires_at := some (now + 60) }

/-- `EnhancedPricingRAGAgent.process_query`, restricted to its input
guardrail prefix: steps 1-6 (retrieval, business rules, LLM suggestion,
revenue validation, safety guardrails, risk assessment and storage) are
external effects from the perspective of the input guardrails and are
abstracted as `pipeline`; the two validators run first, in source order, and
short-circuit to a rejection recommendation. -/
def process_query (re_search : String → String → Bool) (now : ℤ)
    (query : PricingQuery) (pipeline : PricingQuery → PricingRecommendation) :
    PricingRecommendation :=
  match validate_pricing_topic re_search query with
  | some topic_validation_error =>
    create_rejection_recommendation now query "TOPIC_VALIDATION_FAILED" topic_validation_error
  | Option.none =>
    match validate_fraudulent_pricing re_search query with
    | some fraud_validation_error =>
      create_rejection_recommendation now query "FRAUDULENT_PRICING_DETECTED" fraud_validation_error
    | Option.none => pipeline query

/-! ### Concrete instances used by witnesses and counterexamples -/

/-- A stored recommendation with the default `analyst` threshold and
`pending` status. -/
def recPendA : PricingRecommendation :=
  { query := "should we adjust the price of widget A"
    product_info := []
    recommendation := "keep price"
    reasoning := "baseline"
    market_context := "stable"
    confidence_score := 1 }

/-- A pending recommendation that requires `manager` authority. -/
def recMgrPend : PricingRecommendation :=
  { query := "large change on widget B"
    product_info := []
    recommendation := "raise price"
    reasoning := "demand"
    market_context := "hot"
    confidence_score := 1
    approval_threshold := ApprovalLevel.manager }

/-- Store holding one pending analyst-threshold recommendation under "r1". -/
def s0C1 : AgentState := ⟨[("r1", recPendA)], []⟩

/-- First approval action on "r1" (director approves). -/
def req1C1 : ApprovalRequest :=
  { recommendation_id := "r1", approver_id := "alice", approver_role := "director"
    decision := ApprovalStatus.approved, notes := some "ok", timestamp := 100 }

/-- Second approval action on the already-resolved "r1" (manager rejects). -/
def req2C1 : ApprovalRequest :=
  { recommendation_id := "r1", approver_id := "bob", approver_role := "manager"
    decision := ApprovalStatus.rejected, notes := Option.none, timestamp := 200 }

/-- The state after the first approval action succeeded. -/
def s1C1 : AgentState := (submit_approval_request s0C1 req1C1).2

/-- An analyst-level approval action on "r1" (used by the C2 witness). -/
def reqC2 : ApprovalRequest :=
  { recommendation_id := "r1", approver_id := "dave", approver_role := "analyst"
    decision := ApprovalStatus.approved, notes := Option.none, timestamp := 50 }

/-- Store with one pending manager-threshold recommendation under "r2". -/
def sC8 : AgentState := ⟨[("r2", recMgrPend)], []⟩

/-- An insufficient-authority action: an analyst tries to resolve "r2". -/
def reqC8 : ApprovalRequest :=
  { recommendation_id := "r2", approver_id := "carol", approver_role := "analyst"
    decision := ApprovalStatus.approved, notes := Option.none, timestamp := 300 }

/-- Store with one pending manager-threshold recommendation under "r3". -/
def sC10 : AgentState := ⟨[("r3", recMgrPend)], []⟩

/-- Store with one analyst-threshold and one manager-threshold pending
recommendation. -/
def sW10 : AgentState := ⟨[("a1", recPendA), ("m1", recMgrPend)], []⟩

/-- An action by an out-of-vocabulary role on the analyst-threshold "a1". -/
def reqW10 : ApprovalRequest :=
  { recommendation_id := "a1", approver_id := "eve", approver_role := "supervisor"
    decision := ApprovalStatus.approved, notes := Option.none, timestamp := 400 }

/-- Scenario-C product: `current_price = 100`, `cost = 40`, target margin 30. -/
def pC5 : ProductInfo :=
  { item_id := "P5", item_name := "widget C", cost_price := 40, current_price := 100
    competitor_prices := [], target_margin_percent := 30, stock_level := 500
    hourly_sales := [5, 5, 5, 5, 5, 5], price_elasticity := -1.5 }

/-- Scenario-C recommendation: candidate price 10 (a 90% drop). -/
def recC5 : PricingRecommendation :=
  { query := "drop widget C to 10"
    product_info := [pC5]
    recommendation := "cut price"
    reasoning := "llm text"
    market_context := "test"
    confidence_score := 0.8
    recommended_price := some 10 }

/-- A cheap product (`current_price = 0.20`, `cost = 0.01`) on which the
swing and margin clamps push the final price below the $0.50 floor. -/
def pC6 : ProductInfo :=
  { item_id := "P6", item_name := "trinket", cost_price := 1/100, current_price := 1/5
    competitor_prices := [], target_margin_percent := 30, stock_level := 500
    hourly_sales := [1, 1, 1, 1, 1, 1], price_elasticity := -1.5 }

/-- Product for the candidate-price-0 run of the revenue validator. -/
def pC3 : ProductInfo :=
  { item_id := "P3", item_name := "gadget", cost_price := 40, current_price := 100
    competitor_prices := [], target_margin_percent := 30, stock_level := 500
    hourly_sales := [1, 1, 1, 1, 1, 1], price_elasticity := -1.5 }

/-- Recommendation carrying the falsy candidate price `0.0`. -/
def recC3 : PricingRecommendation :=
  { query := "set gadget price to zero"
    product_info := [pC3]
    recommendation := "zero"
    reasoning := "llm text"
    market_context := "test"
    confidence_score := 0.8
    recommended_price := some 0 }

/-- A $1,000 item (cost $600). -/
def pC4 : ProductInfo :=
  { item_id := "P4", item_name := "premium item", cost_price := 600, current_price := 1000
    competitor_prices := [], target_margin_percent := 30, stock_level := 500
    hourly_sales := [1, 0, 0, 0, 0, 0], price_elasticity := -0.5 }

/-- Scenario-E recommendation: +12% (to $1,120) with confidence 0.75. -/
def recC4 : PricingRecommendation :=
  { query := "raise premium item by 12 percent"
    product_info := [pC4]
    recommendation := "raise"
    reasoning := "llm text"
    market_context := "test"
    confidence_score := 0.75
    recommended_price := some 1120 }

/-- Scenario E pushed through revenue validation, guardrails and the risk
engine (at time 0), exactly as `process_query` steps 3.5-5 do. -/
def recC4r : PricingRecommendation :=
  assess_risk_and_approval 0
    (apply_enhanced_guardrails (validate_revenue_maximization recC4).2)

/-- A financial-impact dict with `price_change_percent = 12` and
`price_change_amount = 120` (the +12% change on a $1,000 item). -/
def fiW4 : FinancialImpact :=
  { price_change_percent := some 12
    price_change_amount := some 120
    estimated_monthly_revenue_impact := some 6336
    estimated_daily_sales := some (94 / 25) }

/-- A recommendation carrying `fiW4`, used by the C4 witness. -/
def recW4 : PricingRecommendation :=
  { query := "raise premium item by 12 percent"
    product_info := [pC4]
    recommendation := "raise"
    reasoning := "llm text"
    market_context := "test"
    confidence_score := 0.75
    recommended_price := some 1120
    financial_impact := some fiW4 }

/-- A regex oracle that never matches (the deny-list hit below is by
substring, not by regex). -/
def reF : String → String → Bool := fun _ _ => false

/-- An off-topic query: "weather forecast" is on the deny-list. -/
def qW : PricingQuery := { query := "weather forecast" }

/-- Two distinct stand-ins for the downstream pipeline (steps 1-6). -/
def dummyRec : PricingRecommendation :=
  { query := "d1", product_info := [], recommendation := "a", reasoning := "a"
    market_context := "a", confidence_score := 1 }

def dummyRec2 : PricingRecommendation :=
  { query := "d2", product_info := [], recommendation := "b", reasoning := "b"
    market_context := "b", confidence_score := 0 }

def plW : PricingQuery → PricingRecommendation := fun _ => dummyRec

def plW2 : PricingQuery → PricingRecommendation := fun _ => dummyRec2

/-! ## Helper lemmas: approval workflow -/

theorem find_updateRec (l : List (String × PricingRecommendation)) (id : String)
    (r : PricingRecommendation)
    (h : ((l.find? (fun kv => kv.1 = id))).isSome) :
    (updateRec l id r).find? (fun kv => kv.1 = id) = some (id, r) := by
  induction l with
  | nil => simp at h
  | cons kv tl ih =>
    by_cases hk : kv.1 = id
    · unfold updateRec
      simp only [List.map_cons, if_pos hk]
      rw [List.find?_cons_of_pos _ (by simpa using hk), hk]
    · unfold updateRec at ih ⊢
      simp only [List.map_cons, if_neg hk]
      rw [List.find?_cons_of_neg _ (by simpa using hk)]
      rw [List.find?_cons_of_neg _ (by simpa using hk)] at h
      exact ih h

theorem lookupRec_update (s : AgentState) (id : String)
    (r rec : PricingRecommendation) (hist : List ApprovalRequest)
    (h : lookupRec s id = some rec) :
    lookupRec ⟨updateRec s.active_recommendations id r, hist⟩ id = some r := by
  unfold lookupRec at h ⊢
  have hsome : ((s.active_recommendations.find? (fun kv => kv.1 = id))).isSome := by
    cases hf : s.active_recommendations.find? (fun kv => kv.1 = id) with
    | none => rw [hf] at h; simp at h
    | some kv => simp
  rw [find_updateRec _ _ _ hsome]
  rfl

theorem approver_levels_ne_none (role : String) :
    approver_levels role ≠ ApprovalLevel.level_none := by
  unfold approver_levels
  split_ifs <;> simp

theorem filter_by_authority_analyst (l : List PricingRecommendation)
    (h : ∀ r ∈ l, r.approval_threshold ≠ ApprovalLevel.level_none) :
    filter_by_authority ApprovalLevel.analyst l
      = Except.ok (l.filter (fun r => r.approval_threshold = ApprovalLevel.analyst)) := by
  induction l with
  | nil => rfl
  | cons r rs ih =>
    have hr := h r (List.mem_cons_self _ _)
    have hrs := ih (fun x hx => h x (List.mem_cons_of_mem _ hx))
    unfold filter_by_authority
    cases ht : r.approval_threshold <;>
      simp_all [has_approval_authority, level_hierarchy, List.filter_cons]

/-! ## Claims -/

/-- C1 (counterexample): after a first successful `submit_approval_request`
(a director approving "r1", setting `approval_status` to `approved`), a
second call for the same id by a manager also returns `true` and overwrites
the stored `approval_status` (to `rejected`): the source never checks that
the stored status is still `pending`, so resubmission does not fail. -/
theorem c1_counterexample :
    (submit_approval_request s0C1 req1C1).1 = true ∧
    (lookupRec s1C1 "r1").map (fun r => r.approval_status) = some ApprovalStatus.approved ∧
    (submit_approval_request s1C1 req2C1).1 = true ∧
    ((lookupRec (submit_approval_request s1C1 req2C1).2 "r1").map
      (fun r => r.approval_status)) = some ApprovalStatus.rejected :=
  ⟨rfl, rfl, rfl, rfl⟩

/-- C1 (amended): `submit_approval_request` never consults the stored
`approval_status`: any call — including one following an earlier successful
resolution — succeeds exactly when the recommendation exists and the
approver has sufficient authority, and on success it sets the four fields
`approval_status`, `approval_notes`, `approved_by`, `approved_at` together
from the request, overwriting whatever was there. -/
theorem c1_submit_ignores_status (s : AgentState) (req : ApprovalRequest)
    (rec : PricingRecommendation)
    (hlook : lookupRec s req.recommendation_id = some rec)
    (hauth : has_approval_authority (approver_levels req.approver_role)
      rec.approval_threshold = some true) :
    (submit_approval_request s req).1 = true ∧
    lookupRec (submit_approval_request s req).2 req.recommendation_id =
      some { rec with
        approval_status := req.decision
        approval_notes := req.notes
        approved_by := some req.approver_id
        approved_at := some req.timestamp } := by
  simp only [submit_approval_request, hlook, hauth]
  exact ⟨trivial, lookupRec_update s _ _ rec _ hlook⟩

/-- C1 (witness): the already-approved "r1" is resolved again by req2C1. -/
theorem c1_witness :
    lookupRec s1C1 "r1" = some ((lookupRec s1C1 "r1").getD recPendA) ∧
    (submit_approval_request s1C1 req2C1).1 = true ∧
    lookupRec (submit_approval_request s1C1 req2C1).2 "r1" =
      some { (lookupRec s1C1 "r1").getD recPendA with
        approval_status := req2C1.decision
        approval_notes := req2C1.notes
        approved_by := some req2C1.approver_id
        approved_at := some req2C1.timestamp } := by
  refine ⟨rfl, ?_, ?_⟩
  · exact (c1_submit_ignores_status s1C1 req2C1 _ rfl rfl).1
  · exact (c1_submit_ignores_status s1C1 req2C1 _ rfl rfl).2

/-- C2: for a stored pending recommendation with one of the four real
thresholds and an approver whose role is one of the four role strings,
`submit_approval_request` succeeds iff the approver role's rank in the
order analyst < senior_analyst < manager < director is at least the
threshold's rank. -/
theorem c2_authority_iff (s : AgentState) (req : ApprovalRequest)
    (rec : PricingRecommendation)
    (hlook : lookupRec s req.recommendation_id = some rec)
    (_hpend : rec.approval_status = ApprovalStatus.pending)
    (_hrole : req.approver_role ∈ ["analyst", "senior_analyst", "manager", "director"])
    (hthr : rec.approval_threshold ≠ ApprovalLevel.level_none) :
    ((submit_approval_request s req).1 = true ↔
      spec_role_order rec.approval_threshold ≤
        spec_role_order (approver_levels req.approver_role)) := by
  have hlevel := approver_levels_ne_none req.approver_role
  unfold submit_approval_request
  rw [hlook]
  cases ha : approver_levels req.approver_role <;>
    cases ht : rec.approval_threshold <;>
      simp_all [has_approval_authority, level_hierarchy, spec_role_order]

/-- C2 (witness): an analyst resolving the analyst-threshold pending "r1". -/
theorem c2_witness :
    lookupRec s0C1 reqC2.recommendation_id = some recPendA ∧
    recPendA.approval_status = ApprovalStatus.pending ∧
    ((submit_approval_request s0C1 reqC2).1 = true ↔
      spec_role_order recPendA.approval_threshold ≤
        spec_role_order (approver_levels reqC2.approver_role)) :=
  ⟨rfl, rfl,
    c2_authority_iff s0C1 reqC2 recPendA rfl rfl (by decide) (by decide)⟩

/-- C8 (counterexample): an analyst attempting to resolve the
manager-threshold "r2" fails, and the attempt is NOT appended to the
approval history (the history stays empty and the whole state is
unchanged) — `approval_history.append` runs only after the authority check
passes, so rejected attempts leave no audit record. -/
theorem c8_counterexample :
    (submit_approval_request sC8 reqC8).1 = false ∧
    (submit_approval_request sC8 reqC8).2.approval_history = [] ∧
    (submit_approval_request sC8 reqC8).2 = sC8 :=
  ⟨rfl, rfl, rfl⟩

/-- C8 (amended): the `ApprovalRequest` is appended to the approval history
iff the attempt succeeds; a failed attempt (unknown id, insufficient
authority, or `NONE`-threshold `KeyError`) leaves the entire state — the
stored recommendation and the history — untouched. -/
theorem c8_history_append_iff_success (s : AgentState) (req : ApprovalRequest) :
    (submit_approval_request s req).2.approval_history
      = s.approval_history ++ (if (submit_approval_request s req).1 then [req] else []) ∧
    ((submit_approval_request s req).1 = false → (submit_approval_request s req).2 = s) := by
  unfold submit_approval_request
  cases hlook : lookupRec s req.recommendation_id with
  | none => simp
  | some rec =>
    cases hauth : has_approval_authority (approver_levels req.approver_role)
        rec.approval_threshold with
    | none => simp [hauth]
    | some b => cases b <;> simp [hauth]

/-- C8 (witness): the amended statement at the concrete failing attempt. -/
theorem c8_witness :
    (submit_approval_request sC8 reqC8).2.approval_history
      = sC8.approval_history ++ (if (submit_approval_request sC8 reqC8).1 then [reqC8] else []) ∧
    (submit_approval_request sC8 reqC8).2 = sC8 :=
  ⟨(c8_history_append_iff_success sC8 reqC8).1,
   (c8_history_append_iff_success sC8 reqC8).2 rfl⟩

/-- C10 (counterexample): the empty string is also a role outside the four
known roles, but `get_pending_approvals ""` skips role filtering entirely
(Python truthiness of `if approver_role:`), returning ALL pending entries —
here a manager-threshold one — instead of exactly the analyst-threshold
entries. -/
theorem c10_counterexample :
    get_pending_approvals sC10 (some "") = Except.ok [recMgrPend] ∧
    recMgrPend.approval_threshold = ApprovalLevel.manager ∧
    recMgrPend.approval_status = ApprovalStatus.pending :=
  ⟨rfl, rfl, rfl⟩

/-- C10 (amended): for every NON-EMPTY approver role string outside the four
known roles, both operations treat the role as `analyst`:
`submit_approval_request` succeeds exactly on stored recommendations with
`analyst` threshold, and `get_pending_approvals` returns exactly the
analyst-threshold pending entries.  (For the empty string the role filter is
skipped by the `if approver_role:` truthiness guard.) -/
theorem c10_unknown_role (s : AgentState) (req : ApprovalRequest)
    (h1 : req.approver_role ≠ "analyst")
    (h2 : req.approver_role ≠ "senior_analyst")
    (h3 : req.approver_role ≠ "manager")
    (h4 : req.approver_role ≠ "director")
    (h5 : req.approver_role ≠ "")
    (hthr : ∀ r ∈ s.active_recommendations.map Prod.snd,
      r.approval_threshold ≠ ApprovalLevel.level_none) :
    ((submit_approval_request s req).1 = true ↔
      ∃ rec, lookupRec s req.recommendation_id = some rec ∧
        rec.approval_threshold = ApprovalLevel.analyst) ∧
    get_pending_approvals s (some req.approver_role)
      = Except.ok ((pendingList s).filter
          (fun r => r.approval_threshold = ApprovalLevel.analyst)) := by
  have hal : approver_levels req.approver_role = ApprovalLevel.analyst := by
    unfold approver_levels
    rw [if_neg h1, if_neg h2, if_neg h3, if_neg h4]
  constructor
  · unfold submit_approval_request
    rw [hal]
    cases hlook : lookupRec s req.recommendation_id with
    | none => simp
    | some rec =>
      cases ht : rec.approval_threshold <;>
        simp_all [has_approval_authority, level_hierarchy]
  · simp only [get_pending_approvals]
    rw [if_neg h5, hal]
    apply filter_by_authority_analyst
    intro r hr
    exact hthr r (List.mem_of_mem_filter hr)

/-- C10 (witness): the "supervisor" role resolving the analyst-threshold
"a1" in a store that also holds a manager-threshold pending entry. -/
theorem c10_witness :
    reqW10.approver_role ≠ "analyst" ∧ reqW10.approver_role ≠ "" ∧
    (((submit_approval_request sW10 reqW10).1 = true ↔
      ∃ rec, lookupRec sW10 reqW10.recommendation_id = some rec ∧
        rec.approval_threshold = ApprovalLevel.analyst) ∧
    get_pending_approvals sW10 (some reqW10.approver_role)
      = Except.ok ((pendingList sW10).filter
          (fun r => r.approval_threshold = ApprovalLevel.analyst))) :=
  ⟨by decide, by decide,
    c10_unknown_role sW10 reqW10 (by decide) (by decide) (by decide) (by decide)
      (by decide) (by decide)⟩

/-! ## Helper lemmas: Safety Guardrail Stage -/

theorem tenth_mul (a : ℚ) : a * 0.1 = a / 10 := by
  rw [show (0.1 : ℚ) = 1 / 10 from by norm_num]
  ring

theorem cfg_minabs_eq : guardrail_config.min_absolute_price = 1 / 2 := by
  norm_num [guardrail_config.min_absolute_price]

theorem cfg_mult_eq : guardrail_config.price_below_cost_multiplier = 21 / 20 := by
  norm_num [guardrail_config.price_below_cost_multiplier]

theorem max_change_eq (p : ProductInfo) : max_change p = p.current_price / 2 := by
  unfold max_change guardrail_config.max_price_change_percent
  rw [show ((50 : ℚ) / 100) = 1 / 2 from by norm_num]
  ring

theorem emergency_ge_half (p : ProductInfo) : (1 / 2 : ℚ) ≤ emergency_price p := by
  unfold emergency_price
  rw [cfg_minabs_eq]
  exact le_trans (le_max_right _ _) (le_max_right _ _)

theorem emergency_ge_current (p : ProductInfo) : p.current_price ≤ emergency_price p :=
  le_max_left _ _

theorem g0_pos (p : ProductInfo) (cand : Option ℚ) : 0 < g0 p cand := by
  cases cand with
  | none =>
    simp only [g0]
    linarith [emergency_ge_half p]
  | some v =>
    simp only [g0]
    split_ifs with h
    · linarith [emergency_ge_half p]
    · exact lt_of_not_le h

theorem g0_some_of_pos (p : ProductInfo) (x : ℚ) (hx : 0 < x) : g0 p (some x) = x := by
  simp only [g0]
  rw [if_neg (not_le.2 hx)]

theorem g0_some_of_nonpos (p : ProductInfo) (x : ℚ) (hx : x ≤ 0) :
    g0 p (some x) = emergency_price p := by
  simp only [g0]
  rw [if_pos hx]

theorem g1_eq_of_ge (p : ProductInfo) (x : ℚ) (h : p.current_price / 10 ≤ x) :
    g1 p x = x := by
  have hcond : ¬ (x < p.current_price * 0.1) := by
    rw [not_lt, tenth_mul]
    exact h
  unfold g1
  rw [if_neg hcond]

theorem g2_ge_half (x : ℚ) : (1 / 2 : ℚ) ≤ g2 x := by
  unfold g2
  rw [cfg_minabs_eq]
  split_ifs with h
  · norm_num
  · linarith [not_lt.1 h]

theorem g2_ge_self (x : ℚ) : x ≤ g2 x := by
  unfold g2
  split_ifs with h
  · linarith [h]
  · linarith

theorem g2_eq_of_ge (x : ℚ) (h : (1 / 2 : ℚ) ≤ x) : g2 x = x := by
  unfold g2
  rw [cfg_minabs_eq, if_neg (not_lt.2 h)]

theorem g3_ge_self (p : ProductInfo) (x : ℚ) : x ≤ g3 p x := by
  unfold g3
  split_ifs with h
  · linarith [h]
  · linarith

theorem g3_ge_cost (p : ProductInfo) (x : ℚ) :
    p.cost_price * guardrail_config.price_below_cost_multiplier ≤ g3 p x := by
  unfold g3
  split_ifs with h
  · linarith
  · linarith [not_lt.1 h]

theorem g3_eq_of_ge (p : ProductInfo) (x : ℚ)
    (h : p.cost_price * guardrail_config.price_below_cost_multiplier ≤ x) :
    g3 p x = x := by
  unfold g3
  rw [if_neg (not_lt.2 h)]

theorem g4_low (p : ProductInfo) (x : ℚ) (hc : 0 < p.current_price) :
    p.current_price / 2 ≤ g4 p x := by
  unfold g4
  rw [max_change_eq]
  split_ifs with h1 h2
  · linarith
  · linarith
  · have h3 := abs_le.1 (not_lt.1 h1)
    linarith [h3.1]

theorem g4_high (p : ProductInfo) (x : ℚ) (hc : 0 < p.current_price) :
    g4 p x ≤ 3 * p.current_price / 2 := by
  unfold g4
  rw [max_change_eq]
  split_ifs with h1 h2
  · linarith
  · linarith
  · have h3 := abs_le.1 (not_lt.1 h1)
    linarith [h3.2]

theorem g4_eq_of_mem (p : ProductInfo) (x : ℚ)
    (h1 : p.current_price / 2 ≤ x) (h2 : x ≤ 3 * p.current_price / 2) :
    g4 p x = x := by
  have hcond : ¬ (|x - p.current_price| > max_change p) := by
    rw [max_change_eq, not_lt, abs_le]
    constructor <;> linarith
  unfold g4
  rw [if_neg hcond]

theorem g4_up (p : ProductInfo) (x : ℚ) (hc : 0 < p.current_price)
    (h : 3 * p.current_price / 2 < x) : g4 p x = 3 * p.current_price / 2 := by
  have hx : 0 < x - p.current_price := by linarith
  have h1 : |x - p.current_price| > max_change p := by
    rw [max_change_eq, abs_of_pos hx]
    linarith
  have h2 : x > p.current_price := by linarith
  unfold g4
  rw [if_pos h1, if_pos h2, max_change_eq]
  ring

theorem margin_lt_min_iff (p : ProductInfo) (x : ℚ) (hx : 0 < x) :
    (margin p x < guardrail_config.min_margin_percent ↔ 90 * x < 100 * p.cost_price) := by
  unfold margin guardrail_config.min_margin_percent
  rw [if_pos hx, div_mul_eq_mul_div, div_lt_iff₀ hx]
  constructor <;> intro h <;> linarith

theorem margin_gt_max_iff (p : ProductInfo) (x : ℚ) (hx : 0 < x) :
    (guardrail_config.max_margin_percent < margin p x ↔ 100 * p.cost_price < 20 * x) := by
  unfold margin guardrail_config.max_margin_percent
  rw [if_pos hx, div_mul_eq_mul_div, lt_div_iff₀ hx]
  constructor <;> intro h <;> linarith

theorem min_margin_price_eq (p : ProductInfo) :
    min_margin_price p = 10 * p.cost_price / 9 := by
  unfold min_margin_price guardrail_config.min_margin_percent
  rw [show (1 - (10 : ℚ) / 100) = 9 / 10 from by norm_num, div_div_eq_mul_div]
  ring

theorem max_margin_price_eq (p : ProductInfo) :
    max_margin_price p = 5 * p.cost_price := by
  unfold max_margin_price guardrail_config.max_margin_percent
  rw [show (1 - (80 : ℚ) / 100) = 1 / 5 from by norm_num, div_div_eq_mul_div]
  ring

theorem g5_eq_min (p : ProductInfo) (x : ℚ) (hx : 0 < x)
    (h : 90 * x < 100 * p.cost_price) : g5 p x = min_margin_price p := by
  unfold g5
  rw [if_pos ((margin_lt_min_iff p x hx).2 h)]

theorem g5_eq_min_of_nonpos (p : ProductInfo) (x : ℚ) (hx : x ≤ 0) :
    g5 p x = min_margin_price p := by
  have hm : margin p x = 0 := by
    unfold margin
    rw [if_neg (not_lt.2 hx)]
  unfold g5
  rw [hm]
  rw [if_pos (by norm_num [guardrail_config.min_margin_percent])]

theorem g5_eq_max (p : ProductInfo) (x : ℚ) (hx : 0 < x)
    (h1 : 100 * p.cost_price ≤ 90 * x) (h2 : 100 * p.cost_price < 20 * x) :
    g5 p x = max_margin_price p := by
  have hnotmin : ¬ (margin p x < guardrail_config.min_margin_percent) := by
    rw [margin_lt_min_iff p x hx]
    exact not_lt.2 h1
  have hmax : guardrail_config.max_margin_percent < margin p x :=
    (margin_gt_max_iff p x hx).2 h2
  unfold g5
  rw [if_neg hnotmin, if_pos hmax]

theorem g5_eq_self (p : ProductInfo) (x : ℚ) (hx : 0 < x)
    (h1 : 100 * p.cost_price ≤ 90 * x) (h2 : 20 * x ≤ 100 * p.cost_price) :
    g5 p x = x := by
  have hnotmin : ¬ (margin p x < guardrail_config.min_margin_percent) := by
    rw [margin_lt_min_iff p x hx]
    exact not_lt.2 h1
  have hnotmax : ¬ (guardrail_config.max_margin_percent < margin p x) := by
    rw [margin_gt_max_iff p x hx]
    exact not_lt.2 h2
  unfold g5
  rw [if_neg hnotmin, if_neg hnotmax]

theorem p3_ge_half (p : ProductInfo) (y : ℚ) : (1 / 2 : ℚ) ≤ g3 p (g2 y) :=
  le_trans (g2_ge_half y) (g3_ge_self p _)

theorem pre_low (p : ProductInfo) (cand : Option ℚ) (hc : 0 < p.current_price) :
    p.current_price / 2 ≤ pre_margin_price p cand :=
  g4_low p _ hc

theorem pre_high (p : ProductInfo) (cand : Option ℚ) (hc : 0 < p.current_price) :
    pre_margin_price p cand ≤ 3 * p.current_price / 2 :=
  g4_high p _ hc

theorem pre_pos (p : ProductInfo) (cand : Option ℚ) (hc : 0 < p.current_price) :
    0 < pre_margin_price p cand :=
  lt_of_lt_of_le (by linarith) (pre_low p cand hc)

theorem pre_eq_up_of_lt_half (p : ProductInfo) (cand : Option ℚ)
    (_hc : 0 < p.current_price) (h : pre_margin_price p cand < 1 / 2) :
    pre_margin_price p cand = 3 * p.current_price / 2 := by
  have hp3 : (1 / 2 : ℚ) ≤ g3 p (g2 (g1 p (g0 p cand))) := p3_ge_half p _
  unfold pre_margin_price at h ⊢
  set z := g3 p (g2 (g1 p (g0 p cand))) with hz
  unfold g4 at h ⊢
  rw [max_change_eq] at h ⊢
  split_ifs at h ⊢ with h1 h2
  · ring
  · exfalso
    have hzc : z - p.current_price ≤ 0 := by linarith [not_lt.1 h2]
    rw [abs_of_nonpos hzc] at h1
    linarith [hp3]
  · exfalso
    linarith [hp3]

/-! ## Claims about the Safety Guardrail Stage -/

/-- C5 (counterexample): on Scenario C (current 100, cost 40, candidate 10)
the extreme-drop clamp does NOT fire (its condition `adjusted < current*0.1`
is strict and `10 = 100*0.1`): the final price is 50, but it is reached by
the minimum-markup clamp (to 42, severity high) followed by the
maximum-change clamp (to 50, severity medium) — two violations, neither of
them critical, and neither of them the extreme-drop rule. -/
theorem c5_counterexample :
    (apply_enhanced_guardrails recC5).recommended_price = some 50 ∧
    (apply_enhanced_guardrails recC5).guardrail_violations.length = 2 ∧
    ((apply_enhanced_guardrails recC5).guardrail_violations.map (fun v => v.rule_name))
      = ["minimum_cost_margin", "maximum_price_change"] ∧
    ((apply_enhanced_guardrails recC5).guardrail_violations.map (fun v => v.severity))
      = [RiskLevel.high, RiskLevel.medium] := by
  norm_num [apply_enhanced_guardrails, g0, g1, g2, g3, g4, g5, margin,
    min_margin_price, max_margin_price, safe_price, emergency_price, max_change,
    pC5, recC5, guardrail_config.max_price_change_percent,
    guardrail_config.min_margin_percent, guardrail_config.max_margin_percent,
    guardrail_config.price_below_cost_multiplier, guardrail_config.min_absolute_price,
    guardrail_config.low_confidence_threshold, abs]

/-- C5 (amended): for the Scenario-C product and candidate price 10 the
Safety Guardrail Stage produces a final price of 50, via two
GuardrailViolations — `minimum_cost_margin` (severity high, raising 10 to
42) and `maximum_price_change` (severity medium, capping the drop at 50) —
while the extreme-drop clamp stays silent because its threshold comparison
is strict. -/
theorem c5_scenario :
    (apply_enhanced_guardrails recC5).recommended_price = some 50 ∧
    ((apply_enhanced_guardrails recC5).guardrail_violations.map
        (fun v => (v.rule_name, v.severity, v.original_value, v.adjusted_value)))
      = [("minimum_cost_margin", RiskLevel.high, some 10, some 42),
         ("maximum_price_change", RiskLevel.medium, some 42, some 50)] := by
  norm_num [apply_enhanced_guardrails, g0, g1, g2, g3, g4, g5, margin,
    min_margin_price, max_margin_price, safe_price, emergency_price, max_change,
    pC5, recC5, guardrail_config.max_price_change_percent,
    guardrail_config.min_margin_percent, guardrail_config.max_margin_percent,
    guardrail_config.price_below_cost_multiplier, guardrail_config.min_absolute_price,
    guardrail_config.low_confidence_threshold, abs]

/-- C6 (counterexample): for the product with `current_price = 0.20` and
`cost = 0.01` (positive price, non-negative cost) and candidate `0.60`, the
final clamped price is `0.05`, strictly below the $0.50 absolute floor: the
maximum-swing clamp caps the price at `0.30` and the maximum-margin clamp
then lowers it to `5 * cost = 0.05`. -/
theorem c6_counterexample :
    0 < pC6.current_price ∧ 0 ≤ pC6.cost_price ∧
    guard_price pC6 (some (3 / 5)) = 1 / 20 ∧
    guard_price pC6 (some (3 / 5)) < guardrail_config.min_absolute_price := by
  norm_num [guard_price, pre_margin_price, g0, g1, g2, g3, g4, g5, margin,
    min_margin_price, max_margin_price, safe_price, emergency_price, max_change,
    pC6, guardrail_config.max_price_change_percent, guardrail_config.min_margin_percent,
    guardrail_config.max_margin_percent, guardrail_config.price_below_cost_multiplier,
    guardrail_config.min_absolute_price, abs]

/-- C6 (amended): for every product with positive current price and
non-negative cost and every candidate price, the final guardrail price
satisfies `price >= cost * 1.05` (the minimum-markup bound). The other
conjunct of the original claim — `price >= $0.50` — does not hold
universally, because the maximum-swing and margin clamps run after the
absolute-floor clamp and can push the price back below the floor. -/
theorem c6_min_markup (p : ProductInfo) (cand : Option ℚ)
    (hc : 0 < p.current_price) (hk : 0 ≤ p.cost_price) :
    p.cost_price * guardrail_config.price_below_cost_multiplier ≤ guard_price p cand := by
  have hlow := pre_low p cand hc
  have hpos := pre_pos p cand hc
  unfold guard_price
  rw [cfg_mult_eq]
  by_cases h1 : 90 * pre_margin_price p cand < 100 * p.cost_price
  · rw [g5_eq_min p _ hpos h1, min_margin_price_eq]
    linarith
  · by_cases h2 : 100 * p.cost_price < 20 * pre_margin_price p cand
    · rw [g5_eq_max p _ hpos (not_lt.1 h1) h2, max_margin_price_eq]
      linarith
    · rw [g5_eq_self p _ hpos (not_lt.1 h1) (not_lt.1 h2)]
      have := not_lt.1 h1
      linarith

/-- C6 (witness): the minimum-markup bound evaluated on the concrete
below-floor run. -/
theorem c6_witness :
    0 < pC6.current_price ∧ 0 ≤ pC6.cost_price ∧
    pC6.cost_price * guardrail_config.price_below_cost_multiplier ≤
      guard_price pC6 (some (3 / 5)) :=
  ⟨by norm_num [pC6], by norm_num [pC6],
    c6_min_markup pC6 (some (3 / 5)) (by norm_num [pC6]) (by norm_num [pC6])⟩

/-! ## Helper lemmas: idempotence of the Safety Guardrail Stage -/

theorem guard_price_some_eq (p : ProductInfo) (z : ℚ) (hz : 0 < z)
    (hz2 : p.current_price / 10 ≤ z) :
    guard_price p (some z) = g5 p (g4 p (g3 p (g2 z))) := by
  unfold guard_price pre_margin_price
  rw [g0_some_of_pos p z hz, g1_eq_of_ge p z hz2]

theorem guard_price_some_emergency (p : ProductInfo) (z : ℚ) (hz : z ≤ 0)
    (hc : 0 < p.current_price) :
    guard_price p (some z) = g5 p (g4 p (g3 p (g2 (emergency_price p)))) := by
  unfold guard_price pre_margin_price
  rw [g0_some_of_nonpos p z hz]
  rw [g1_eq_of_ge p _ (by linarith [emergency_ge_current p] :
    p.current_price / 10 ≤ emergency_price p)]

theorem guard_price_some_fire (p : ProductInfo) (z : ℚ) (hz : 0 < z)
    (hfire : z < p.current_price * 0.1) :
    guard_price p (some z) = g5 p (g4 p (g3 p (g2 (safe_price p)))) := by
  unfold guard_price pre_margin_price
  rw [g0_some_of_pos p z hz]
  unfold g1
  rw [if_pos hfire]

theorem guard_const_of_cur_nonpos (p : ProductInfo) (hc : p.current_price ≤ 0)
    (cand : Option ℚ) : guard_price p cand = min_margin_price p := by
  have hx0 : 0 < g0 p cand := g0_pos p cand
  have h1 : g1 p (g0 p cand) = g0 p cand := by
    unfold g1
    rw [if_neg]
    rw [not_lt, tenth_mul]
    linarith
  unfold guard_price pre_margin_price
  rw [h1]
  have hz : (1 / 2 : ℚ) ≤ g3 p (g2 (g0 p cand)) := p3_ge_half p _
  have habs : |g3 p (g2 (g0 p cand)) - p.current_price| > max_change p := by
    rw [max_change_eq, abs_of_pos (by linarith : (0:ℚ) < g3 p (g2 (g0 p cand)) - p.current_price)]
    linarith
  have hgt : g3 p (g2 (g0 p cand)) > p.current_price := by linarith
  unfold g4
  rw [if_pos habs, if_pos hgt]
  apply g5_eq_min_of_nonpos
  rw [max_change_eq]
  linarith

theorem idem_min_branch (p : ProductInfo) (cand : Option ℚ)
    (hc : 0 < p.current_price)
    (hmin : 90 * pre_margin_price p cand < 100 * p.cost_price) :
    guard_price p (some (guard_price p cand)) = guard_price p cand := by
  have hlow := pre_low p cand hc
  have hpos := pre_pos p cand hc
  have hy : guard_price p cand = 10 * p.cost_price / 9 := by
    unfold guard_price
    rw [g5_eq_min p _ hpos hmin, min_margin_price_eq]
  rw [hy]
  have hk : 0 < p.cost_price := by linarith
  have hyc : p.current_price / 2 < 10 * p.cost_price / 9 := by linarith
  have hypos : 0 < 10 * p.cost_price / 9 := by linarith
  rw [guard_price_some_eq p _ hypos (by linarith)]
  by_cases hyh : 10 * p.cost_price / 9 < 1 / 2
  · have hxy : pre_margin_price p cand < 10 * p.cost_price / 9 := by linarith
    have hxup := pre_eq_up_of_lt_half p cand hc (by linarith)
    have h3c : 3 * p.current_price / 2 < 1 / 2 := by linarith [hxup]
    rw [show g2 (10 * p.cost_price / 9) = 1 / 2 from by
      unfold g2; rw [cfg_minabs_eq, if_pos hyh]]
    rw [g3_eq_of_ge p (1 / 2 : ℚ) (by rw [cfg_mult_eq]; linarith)]
    rw [g4_up p (1 / 2 : ℚ) hc h3c]
    rw [g5_eq_min p _ (by linarith) (by rw [← hxup]; exact hmin), min_margin_price_eq]
  · push_neg at hyh
    rw [g2_eq_of_ge _ hyh]
    rw [g3_eq_of_ge p _ (by rw [cfg_mult_eq]; linarith)]
    by_cases hy3 : 10 * p.cost_price / 9 ≤ 3 * p.current_price / 2
    · rw [g4_eq_of_mem p _ (by linarith) hy3]
      rw [g5_eq_self p _ hypos (by linarith) (by linarith)]
    · push_neg at hy3
      rw [g4_up p _ hc hy3]
      rw [g5_eq_min p _ (by linarith) (by linarith), min_margin_price_eq]

theorem idem_max_branch (p : ProductInfo) (cand : Option ℚ)
    (hc : 0 < p.current_price)
    (hmin : 100 * p.cost_price ≤ 90 * pre_margin_price p cand)
    (hmax : 100 * p.cost_price < 20 * pre_margin_price p cand) :
    guard_price p (some (guard_price p cand)) = guard_price p cand := by
  have hhigh := pre_high p cand hc
  have hpos := pre_pos p cand hc
  have hy : guard_price p cand = 5 * p.cost_price := by
    unfold guard_price
    rw [g5_eq_max p _ hpos hmin hmax, max_margin_price_eq]
  rw [hy]
  have h5k3c : 5 * p.cost_price < 3 * p.current_price / 2 := by linarith
  rcases le_or_lt p.cost_price 0 with hk | hk
  · rw [guard_price_some_emergency p _ (by linarith) hc]
    have hx4l : p.current_price / 2 ≤ g4 p (g3 p (g2 (emergency_price p))) := g4_low p _ hc
    rw [g5_eq_max p _ (by linarith) (by linarith) (by linarith), max_margin_price_eq]
  · by_cases hfire : 5 * p.cost_price < p.current_price * 0.1
    · rw [guard_price_some_fire p _ (by linarith) hfire]
      have hc50 : 50 * p.cost_price < p.current_price := by
        rw [tenth_mul] at hfire
        linarith
      have hx4l : p.current_price / 2 ≤ g4 p (g3 p (g2 (safe_price p))) := g4_low p _ hc
      rw [g5_eq_max p _ (by linarith) (by linarith) (by linarith), max_margin_price_eq]
    · have hge : p.current_price / 10 ≤ 5 * p.cost_price := by
        have h := not_lt.1 hfire
        rw [tenth_mul] at h
        exact h
      rw [guard_price_some_eq p _ (by linarith) hge]
      have hz2a : 5 * p.cost_price ≤ g2 (5 * p.cost_price) := g2_ge_self _
      have hz2b : (1 / 2 : ℚ) ≤ g2 (5 * p.cost_price) := g2_ge_half _
      rw [g3_eq_of_ge p _ (by rw [cfg_mult_eq]; linarith)]
      have hx4ge : 5 * p.cost_price ≤ g4 p (g2 (5 * p.cost_price)) := by
        unfold g4
        rw [max_change_eq]
        split_ifs with h1 h2
        · linarith
        · have hz2c : g2 (5 * p.cost_price) - p.current_price ≤ 0 := by
            linarith [not_lt.1 h2]
          rw [abs_of_nonpos hz2c] at h1
          linarith
        · linarith
      have hx4l : p.current_price / 2 ≤ g4 p (g2 (5 * p.cost_price)) := g4_low p _ hc
      rcases eq_or_lt_of_le hx4ge with heq | hlt
      · rw [g5_eq_self p _ (by linarith) (by linarith [heq]) (by linarith [heq])]
        exact heq.symm
      · rw [g5_eq_max p _ (by linarith) (by linarith) (by linarith), max_margin_price_eq]

theorem idem_self_branch (p : ProductInfo) (cand : Option ℚ)
    (hc : 0 < p.current_price)
    (hmin : 100 * p.cost_price ≤ 90 * pre_margin_price p cand)
    (hmax : 20 * pre_margin_price p cand ≤ 100 * p.cost_price) :
    guard_price p (some (guard_price p cand)) = guard_price p cand := by
  have hlow := pre_low p cand hc
  have hhigh := pre_high p cand hc
  have hpos := pre_pos p cand hc
  have hy : guard_price p cand = pre_margin_price p cand := by
    unfold guard_price
    exact g5_eq_self p _ hpos hmin hmax
  rw [hy]
  rw [guard_price_some_eq p _ hpos (by linarith)]
  by_cases hxh : pre_margin_price p cand < 1 / 2
  · have hxup := pre_eq_up_of_lt_half p cand hc hxh
    rw [show g2 (pre_margin_price p cand) = 1 / 2 from by
      unfold g2; rw [cfg_minabs_eq, if_pos hxh]]
    rw [g3_eq_of_ge p (1 / 2 : ℚ) (by rw [cfg_mult_eq]; linarith)]
    rw [g4_up p (1 / 2 : ℚ) hc (by linarith [hxup])]
    rw [← hxup]
    exact g5_eq_self p _ hpos hmin hmax
  · push_neg at hxh
    rw [g2_eq_of_ge _ hxh]
    rw [g3_eq_of_ge p _ (by rw [cfg_mult_eq]; linarith)]
    rw [g4_eq_of_mem p _ hlow hhigh]
    exact g5_eq_self p _ hpos hmin hmax

theorem guard_price_idem (p : ProductInfo) (cand : Option ℚ) :
    guard_price p (some (guard_price p cand)) = guard_price p cand := by
  rcases le_or_lt p.current_price 0 with hc | hc
  · rw [guard_const_of_cur_nonpos p hc, guard_const_of_cur_nonpos p hc]
  · by_cases hmin : 90 * pre_margin_price p cand < 100 * p.cost_price
    · exact idem_min_branch p cand hc hmin
    · by_cases hmax : 100 * p.cost_price < 20 * pre_margin_price p cand
      · exact idem_max_branch p cand hc (not_lt.1 hmin) hmax
      · exact idem_self_branch p cand hc (not_lt.1 hmin) (not_lt.1 hmax)

theorem apply_guardrails_nil (rec : PricingRecommendation)
    (h : rec.product_info = []) : apply_enhanced_guardrails rec = rec := by
  simp only [apply_enhanced_guardrails, h]

theorem apply_guardrails_price (rec : PricingRecommendation)
    (p : ProductInfo) (tl : List ProductInfo) (h : rec.product_info = p :: tl) :
    (apply_enhanced_guardrails rec).recommended_price
      = some (guard_price p rec.recommended_price) := by
  simp only [apply_enhanced_guardrails, h, guard_price, pre_margin_price]

theorem apply_guardrails_product_info (rec : PricingRecommendation)
    (p : ProductInfo) (tl : List ProductInfo) (h : rec.product_info = p :: tl) :
    (apply_enhanced_guardrails rec).product_info = rec.product_info := by
  simp only [apply_enhanced_guardrails, h]

/-- C7: applying the Safety Guardrail Stage twice (the clamped price of the
first application is fed back as the candidate, the product is unchanged)
yields the same final price as applying it once — for every recommendation,
every product and every candidate price, with no restriction on signs. -/
theorem c7_idempotent (rec : PricingRecommendation) :
    (apply_enhanced_guardrails (apply_enhanced_guardrails rec)).recommended_price
      = (apply_enhanced_guardrails rec).recommended_price := by
  cases hpi : rec.product_info with
  | nil =>
    rw [apply_guardrails_nil rec hpi, apply_guardrails_nil rec hpi]
  | cons p tl =>
    have h2 : (apply_enhanced_guardrails rec).product_info = p :: tl := by
      rw [apply_guardrails_product_info rec p tl hpi]
      exact hpi
    rw [apply_guardrails_price _ p tl h2, apply_guardrails_price rec p tl hpi]
    exact congrArg some (guard_price_idem p rec.recommended_price)

/-! ## Claims: Revenue-Impact Validator, Risk Engine, Input Guardrails -/

/-- The code's monthly-impact expression equals the spec formula. -/
theorem spec_monthly_eq_code (p : ProductInfo) (r : ℚ) :
    spec_monthly_revenue_impact p r
      = (r * (recentSales p * 4 *
            max (1 + p.price_elasticity * ((r - p.current_price) / p.current_price * 100) / 100) 0.05)
          - p.current_price * (recentSales p * 4)) * 30 := by
  unfold spec_monthly_revenue_impact spec_baseline_daily spec_demand_multiplier
    spec_demand_change_pct spec_price_change_pct recentSales
  rfl

/-- C3 (counterexample): for the product with current price 100 and a
six-hour sales window summing to 6, the candidate price `0.0` has a
spec-formula monthly revenue impact of −72,000 (far below −100), yet the
validator ACCEPTS it — Python's `not recommendation.recommended_price`
treats `0.0` as falsy and skips the whole check, leaving the recommendation
untouched. -/
theorem c3_counterexample :
    0 < pC3.current_price ∧
    (validate_revenue_maximization recC3).1 = Option.none ∧
    (validate_revenue_maximization recC3).2 = recC3 ∧
    spec_monthly_revenue_impact pC3 0 < -100 := by
  refine ⟨by norm_num [pC3], rfl, rfl, ?_⟩
  norm_num [spec_monthly_revenue_impact, spec_baseline_daily, spec_demand_multiplier,
    spec_demand_change_pct, spec_price_change_pct, pC3, max_def]

/-- C3 (amended): for every product with positive current price and every
NONZERO candidate price on a recommendation that carries the product, the
revenue validator rejects exactly when the spec formula's monthly revenue
impact is below −100, and whenever it accepts, the attached
financial-impact fields reproduce the spec formulas exactly.  (At candidate
price exactly 0 the validator skips and accepts regardless — see the
counterexample.) -/
theorem c3_revenue_gate (rec : PricingRecommendation) (p : ProductInfo)
    (tl : List ProductInfo) (r : ℚ)
    (hprod : rec.product_info = p :: tl)
    (hprice : rec.recommended_price = some r)
    (hr0 : r ≠ 0)
    (hc : 0 < p.current_price) :
    (((validate_revenue_maximization rec).1).isSome ↔
      spec_monthly_revenue_impact p r < -100) ∧
    ((validate_revenue_maximization rec).1 = Option.none →
      (validate_revenue_maximization rec).2.financial_impact = some
        { price_change_percent := some (spec_price_change_pct p r)
          price_change_amount := some (r - p.current_price)
          estimated_monthly_revenue_impact := some (spec_monthly_revenue_impact p r)
          estimated_daily_sales := some (spec_baseline_daily p * spec_demand_multiplier p r)
          demand_change_percent := some (spec_demand_change_pct p r)
          current_daily_revenue := some (p.current_price * spec_baseline_daily p)
          projected_daily_revenue := some (r * (spec_baseline_daily p * spec_demand_multiplier p r)) }) := by
  have hc' : ¬ p.current_price ≤ 0 := not_le.2 hc
  have hkey := spec_monthly_eq_code p r
  simp only [validate_revenue_maximization, hprod, hprice, if_neg hr0, if_neg hc']
  rw [← hkey]
  split_ifs with h
  · simp only [Option.isSome_some, true_iff, reduceCtorEq, false_implies, and_true]
    exact h
  · simp only [Option.isSome_none, Bool.false_eq_true, false_iff, not_lt, forall_const]
    constructor
    · exact not_lt.1 h
    · unfold spec_price_change_pct spec_baseline_daily spec_demand_multiplier
        spec_demand_change_pct spec_price_change_pct recentSales
      rfl

/-- C3 (witness): the amended gate evaluated on the accepting +12% run. -/
theorem c3_witness :
    recC4.product_info = [pC4] ∧ recC4.recommended_price = some 1120 ∧
    (1120 : ℚ) ≠ 0 ∧ 0 < pC4.current_price ∧
    ((((validate_revenue_maximization recC4).1).isSome ↔
      spec_monthly_revenue_impact pC4 1120 < -100) ∧
    ((validate_revenue_maximization recC4).1 = Option.none →
      (validate_revenue_maximization recC4).2.financial_impact = some
        { price_change_percent := some (spec_price_change_pct pC4 1120)
          price_change_amount := some (1120 - pC4.current_price)
          estimated_monthly_revenue_impact := some (spec_monthly_revenue_impact pC4 1120)
          estimated_daily_sales := some (spec_baseline_daily pC4 * spec_demand_multiplier pC4 1120)
          demand_change_percent := some (spec_demand_change_pct pC4 1120)
          current_daily_revenue := some (pC4.current_price * spec_baseline_daily pC4)
          projected_daily_revenue := some (1120 * (spec_baseline_daily pC4 * spec_demand_multiplier pC4 1120)) })) :=
  ⟨rfl, rfl, by norm_num, by norm_num [pC4],
    c3_revenue_gate recC4 pC4 [] 1120 rfl rfl (by norm_num) (by norm_num [pC4])⟩

/-- C4 (counterexample): Scenario E run through the real pipeline (revenue
validation, guardrails, risk engine): a final clamped price of $1,120 —
exactly +12% on the $1,000 item — with confidence 0.75 is classified
risk_level = HIGH with approval_threshold = MANAGER, not medium /
senior_analyst: the absolute change of $120 exceeds the $100
`max_absolute_price_change` bound, and that branch is checked before the
≥10% branch. -/
theorem c4_counterexample :
    (validate_revenue_maximization recC4).1 = Option.none ∧
    (apply_enhanced_guardrails (validate_revenue_maximization recC4).2).recommended_price
      = some 1120 ∧
    recC4.confidence_score = 0.75 ∧ pC4.current_price = 1000 ∧
    recC4r.risk_level = RiskLevel.high ∧
    recC4r.approval_threshold = ApprovalLevel.manager ∧
    recC4r.risk_level ≠ RiskLevel.medium ∧
    recC4r.approval_threshold ≠ ApprovalLevel.senior_analyst := by
  norm_num [recC4r, validate_revenue_maximization, apply_enhanced_guardrails,
    assess_risk_and_approval, g0, g1, g2, g3, g4, g5, margin, min_margin_price,
    max_margin_price, safe_price, emergency_price, max_change, recentSales, pC4,
    recC4, max_def, abs,
    guardrail_config.max_price_change_percent, guardrail_config.min_margin_percent,
    guardrail_config.max_margin_percent, guardrail_config.price_below_cost_multiplier,
    guardrail_config.min_absolute_price, guardrail_config.low_confidence_threshold,
    guardrail_config.medium_confidence_threshold, guardrail_config.critical_risk_price_change,
    guardrail_config.high_risk_price_change, guardrail_config.max_absolute_price_change,
    guardrail_config.high_value_item_threshold]
  exact ⟨by decide, by decide⟩

/-- C4 (amended): for every recommendation with a product, a non-falsy
recommended price and a financial-impact dict whose absolute percent change
is below the 40% critical bound while either reaching the 25% high bound or
exceeding the $100 absolute-change bound, the risk engine assigns
risk_level = high and approval_threshold = manager; in particular the
+12%/$1,000 scenario ($120 > $100) lands in this branch, not in
medium/senior_analyst. -/
theorem c4_high_branch (now : ℤ) (rec : PricingRecommendation)
    (p : ProductInfo) (tl : List ProductInfo) (r : ℚ) (fi : FinancialImpact)
    (hprod : rec.product_info = p :: tl)
    (hprice : rec.recommended_price = some r)
    (hr0 : r ≠ 0)
    (hfi : rec.financial_impact = some fi)
    (hlt : |fi.price_change_percent.getD 0| < guardrail_config.critical_risk_price_change)
    (hhi : guardrail_config.high_risk_price_change ≤ |fi.price_change_percent.getD 0|
        ∨ guardrail_config.max_absolute_price_change < |fi.price_change_amount.getD 0|) :
    (assess_risk_and_approval now rec).risk_level = RiskLevel.high ∧
    (assess_risk_and_approval now rec).approval_threshold = ApprovalLevel.manager := by
  simp only [assess_risk_and_approval, hprod, hprice, hfi, if_neg hr0,
    if_neg (not_le.2 hlt), if_pos hhi]
  exact ⟨trivial, trivial⟩

/-- C4 (witness): the high/manager branch at the concrete +12% / $120
financial impact. -/
theorem c4_witness :
    recW4.product_info = [pC4] ∧ recW4.recommended_price = some 1120 ∧
    recW4.financial_impact = some fiW4 ∧
    |fiW4.price_change_percent.getD 0| < guardrail_config.critical_risk_price_change ∧
    guardrail_config.max_absolute_price_change < |fiW4.price_change_amount.getD 0| ∧
    (assess_risk_and_approval 0 recW4).risk_level = RiskLevel.high ∧
    (assess_risk_and_approval 0 recW4).approval_threshold = ApprovalLevel.manager := by
  refine ⟨rfl, rfl, rfl, ?_, ?_, ?_, ?_⟩
  · norm_num [fiW4, guardrail_config.critical_risk_price_change]
  · norm_num [fiW4, guardrail_config.max_absolute_price_change]
  · exact (c4_high_branch 0 recW4 pC4 [] 1120 fiW4 rfl rfl (by norm_num) rfl
      (by norm_num [fiW4, guardrail_config.critical_risk_price_change])
      (Or.inr (by norm_num [fiW4, guardrail_config.max_absolute_price_change]))).1
  · exact (c4_high_branch 0 recW4 pC4 [] 1120 fiW4 rfl rfl (by norm_num) rfl
      (by norm_num [fiW4, guardrail_config.critical_risk_price_change])
      (Or.inr (by norm_num [fiW4, guardrail_config.max_absolute_price_change]))).2

/-- C9: whenever either input validator fires (deny-list topic, failed
allow-list, or fraud pattern/phrase), `process_query` short-circuits: its
result does not depend on the downstream pipeline (no retrieval, suggestion,
revenue validation or risk scoring contributes), and it is a terminal
rejection — `approval_status = rejected`, `risk_level = critical`,
`approval_threshold = director`, exactly one GuardrailViolation of critical
severity carrying the rejection reason (equal to the returned `reasoning`),
`created_at = now` and expiry exactly one minute later. -/
theorem c9_short_circuit (re_search : String → String → Bool) (now : ℤ)
    (query : PricingQuery) (pl pl' : PricingQuery → PricingRecommendation)
    (h : (validate_pricing_topic re_search query).isSome = true
       ∨ (validate_fraudulent_pricing re_search query).isSome = true) :
    process_query re_search now query pl' = process_query re_search now query pl ∧
    (process_query re_search now query pl).approval_status = ApprovalStatus.rejected ∧
    (process_query re_search now query pl).risk_level = RiskLevel.critical ∧
    (process_query re_search now query pl).approval_threshold = ApprovalLevel.director ∧
    ((process_query re_search now query pl).guardrail_violations.map
        (fun v => (v.severity, v.explanation)))
      = [(RiskLevel.critical, (process_query re_search now query pl).reasoning)] ∧
    (process_query re_search now query pl).created_at = now ∧
    (process_query re_search now query pl).expires_at = some (now + 60) := by
  unfold process_query
  cases ht : validate_pricing_topic re_search query with
  | some msg => simp [create_rejection_recommendation]
  | none =>
    cases hf : validate_fraudulent_pricing re_search query with
    | some msg => simp [create_rejection_recommendation]
    | none =>
      rw [ht, hf] at h
      simp at h

/-- C9 (witness): the short-circuit on the deny-listed "weather forecast"
query, with two different downstream pipelines. -/
theorem c9_witness :
    ((validate_pricing_topic reF qW).isSome = true
      ∨ (validate_fraudulent_pricing reF qW).isSome = true) ∧
    (process_query reF 7 qW plW2 = process_query reF 7 qW plW ∧
     (process_query reF 7 qW plW).approval_status = ApprovalStatus.rejected ∧
     (process_query reF 7 qW plW).risk_level = RiskLevel.critical ∧
     (process_query reF 7 qW plW).approval_threshold = ApprovalLevel.director ∧
     ((process_query reF 7 qW plW).guardrail_violations.map
         (fun v => (v.severity, v.explanation)))
       = [(RiskLevel.critical, (process_query reF 7 qW plW).reasoning)] ∧
     (process_query reF 7 qW plW).created_at = 7 ∧
     (process_query reF 7 qW plW).expires_at = some (7 + 60)) :=
  ⟨Or.inl (by decide), c9_short_circuit reF 7 qW plW plW2 (Or.inl (by decide))⟩

end PriceWise
